import Mathlib

/-!
Verification of the shared-ownership handle of `src/SmartPointer.h`
(the reference-counted variant, the one whose line numbers the spec cites).

The C++ class is embedded shallowly: the two heaps the class manipulates
(`new T` storage cells and `new int` reference-count cells) are modelled as
explicit association-list memories threaded through every operation, with a
log of freed addresses so that "release happens exactly once" is observable.
Null pointers are `Option.none`; undefined behaviour (dereferencing null,
touching a freed cell) makes an operation return `none`; `throw std::bad_cast`
is an `Except.error`.
-/

namespace SmartPointer

/-- A heap of cells holding values of type `V`: a bump allocator (`next`),
the association list of live cells, and the log of freed addresses (most
recent first), recorded so that deallocation events can be counted. -/
structure Mem (V : Type) where
  next : Nat
  cells : List (Nat × V)
  freed : List Nat
deriving DecidableEq

/-- The empty heap. -/
def Mem.empty (V : Type) : Mem V := ⟨0, [], []⟩

/-- Allocate a fresh cell holding `v` (models `new`); returns the new heap
and the fresh address. -/
def Mem.alloc {V : Type} (m : Mem V) (v : V) : Mem V × Nat :=
  ({ next := m.next + 1, cells := (m.next, v) :: m.cells, freed := m.freed }, m.next)

/-- Lookup of the first cell with address `a` in a cell list. -/
def Mem.find {V : Type} (a : Nat) : List (Nat × V) → Option V
  | [] => none
  | c :: tl => if c.1 == a then some c.2 else Mem.find a tl

/-- Read the cell at address `a` (models `*p`); `none` if `a` is not a live
cell, i.e. the read is undefined behaviour. -/
def Mem.read {V : Type} (m : Mem V) (a : Nat) : Option V :=
  Mem.find a m.cells

/-- Overwrite the cell at address `a` (models `*p = v`); a write to a dead
address changes nothing. -/
def Mem.write {V : Type} (m : Mem V) (a : Nat) (v : V) : Mem V :=
  { m with cells := m.cells.map (fun c => if c.1 == a then (a, v) else c) }

/-- Deallocate the cell at address `a` (models `delete p` for non-null `p`)
and log the release. -/
def Mem.free {V : Type} (m : Mem V) (a : Nat) : Mem V :=
  { m with cells := m.cells.filter (fun c => c.1 != a), freed := a :: m.freed }

/-- Well-formedness of a bump-allocated heap: every live address is below the
allocation cursor, so a fresh allocation never collides with a live cell. -/
def Mem.wf {V : Type} (m : Mem V) : Prop :=
  ∀ c ∈ m.cells, c.1 < m.next

instance {V : Type} (m : Mem V) : Decidable m.wf := by
  unfold Mem.wf; infer_instance

/-- The program state a `SmartPtr<T>` method can touch: the heap of owned
`T` objects (here `T = int`, the type every scenario in the spec and the
tests uses) and the heap of `int` reference-count cells. -/
structure State where
  store : Mem Int
  counts : Mem Int
deriving DecidableEq

/-- The initial state: nothing allocated yet. -/
def st0 : State := ⟨Mem.empty Int, Mem.empty Int⟩

/-- A `SmartPtr<T>` value: the member `T *ptr` (null = `none`) and the member
`int *ref_count`, which the class always points at some count cell. -/
structure SmartPtr where
  ptr : Option Nat
  ref_count : Nat
deriving DecidableEq

/-- Constructor `explicit SmartPtr(T *p = nullptr) : ptr(p), ref_count(new int(1))`
(SmartPointer.h line 74): adopts the raw pointer `p` (possibly null) and
allocates a count cell holding 1 even when `p` is null. -/
def mkFromRaw (st : State) (p : Option Nat) : State × SmartPtr :=
  let r := st.counts.alloc 1
  ({ st with counts := r.1 }, ⟨p, r.2⟩)

/-- The idiom `SmartPtr<int>(new int(v))` used throughout `TestPointer.cpp`:
allocate a fresh `T` holding `v`, then run the raw-pointer constructor. -/
def mkOwning (st : State) (v : Int) : State × SmartPtr :=
  let r := st.store.alloc v
  mkFromRaw { st with store := r.1 } (some r.2)

/-- Method `use_count()` (lines 198-200):
`return ptr == nullptr ? 0 : *ref_count;`. Reading through a dangling
`ref_count` is undefined behaviour, hence the `Option`. -/
def use_count (st : State) (h : SmartPtr) : Option Int :=
  match h.ptr with
  | none => some 0
  | some _ => st.counts.read h.ref_count

/-- Method `get()` (lines 189-191): returns the raw pointer. -/
def get (h : SmartPtr) : Option Nat := h.ptr

/-- Method `operator!()` (lines 203-205): true iff `ptr == nullptr`. -/
def bang (h : SmartPtr) : Bool := h.ptr == none

/-- Copy constructor (lines 110-112):
`SmartPtr(const SmartPtr<T> &other) : ptr(new T(*other.ptr)), ref_count(other.ref_count) { ++(*ref_count); }`.
It dereferences `other.ptr` unconditionally (undefined behaviour when null,
hence `none`), allocates a fresh copy of the value, shares the count cell and
increments it. Returns the updated state and the new handle. -/
def copyCtor (st : State) (other : SmartPtr) : Option (State × SmartPtr) := do
  let a ← other.ptr
  let v ← st.store.read a
  let r := st.store.alloc v
  let c ← st.counts.read other.ref_count
  pure (⟨r.1, st.counts.write other.ref_count (c + 1)⟩, ⟨some r.2, other.ref_count⟩)

/-- Move constructor (lines 84-87):
`SmartPtr(SmartPtr<T>&& other) noexcept : ptr(other.ptr), ref_count(other.ref_count) { other.ptr = nullptr; other.ref_count = new int(0); }`.
Returns the updated state, the newly constructed handle, and the moved-from
handle afterwards. No count is incremented. -/
def moveCtor (st : State) (other : SmartPtr) : State × SmartPtr × SmartPtr :=
  let r := st.counts.alloc 0
  ({ st with counts := r.1 }, ⟨other.ptr, other.ref_count⟩, ⟨none, r.2⟩)

/-- Destructor (lines 91-97):
`--(*ref_count); if (*ref_count == 0) { delete ptr; delete ref_count; }`.
`delete` of a null `ptr` is a no-op; the count cell itself is freed at zero. -/
def dtor (st : State) (h : SmartPtr) : Option State := do
  let c ← st.counts.read h.ref_count
  let counts2 := st.counts.write h.ref_count (c - 1)
  if c - 1 = 0 then
    let store2 := match h.ptr with
      | none => st.store
      | some a => st.store.free a
    pure ⟨store2, counts2.free h.ref_count⟩
  else
    pure ⟨st.store, counts2⟩

/-- Copy assignment operator (lines 119-131). The flag `same` is the runtime
outcome of the identity test `this != &other` (true when self-assigning, in
which case the body is skipped). Otherwise: decrement the own count, free
storage and count cell when it reaches zero, then `ptr = new T(*other.ptr)`
(a fresh copy of the value, undefined when `other.ptr` is null), adopt and
increment the right-hand count cell. -/
def copyAssign (same : Bool) (st : State) (self other : SmartPtr) :
    Option (State × SmartPtr) :=
  if same then pure (st, self)
  else do
    let c ← st.counts.read self.ref_count
    let counts2 := st.counts.write self.ref_count (c - 1)
    let st2 : State :=
      if c - 1 = 0 then
        let store2 := match self.ptr with
          | none => st.store
          | some a => st.store.free a
        ⟨store2, counts2.free self.ref_count⟩
      else ⟨st.store, counts2⟩
    let a ← other.ptr
    let v ← st2.store.read a
    let r := st2.store.alloc v
    let c2 ← st2.counts.read other.ref_count
    pure (⟨r.1, st2.counts.write other.ref_count (c2 + 1)⟩, ⟨some r.2, other.ref_count⟩)

/-- The exception `std::bad_cast` thrown by the cast methods. -/
inductive CastEx
  | badCast
deriving DecidableEq

/-- Method `staticCast<U>()` (lines 173-183):
`U* newPtr = static_cast<U*>(ptr);` is a compile-time pointer conversion that
maps null to null and non-null to non-null (the identity on addresses in this
model). If `newPtr` is non-null the method builds `SmartPtr<U> newSmartPtr(newPtr)`
(allocating a fresh count cell that is immediately orphaned), overwrites
`newSmartPtr.ref_count` with its own `ref_count`, increments the shared count
and returns the new handle (returned object elided into the caller);
otherwise it throws `std::bad_cast`, leaving the state untouched. -/
def staticCast (st : State) (h : SmartPtr) :
    Option (State × Except CastEx SmartPtr) :=
  match h.ptr with
  | some a =>
    let r := st.counts.alloc 1
    match r.1.read h.ref_count with
    | some c =>
      some (⟨st.store, r.1.write h.ref_count (c + 1)⟩, Except.ok ⟨some a, h.ref_count⟩)
    | none => none
  | none => some (st, Except.error CastEx.badCast)

/-- Method `dynamicCast<U>()` (lines 157-167): identical to `staticCast`
except that `U* newPtr = dynamic_cast<U*>(ptr)` consults the runtime type,
modelled by the parameter `castFn` on non-null addresses (`none` when the
dynamic type is unrelated to `U`); `dynamic_cast` maps a null source pointer
to null. On a null `newPtr` it throws `std::bad_cast` with the state
untouched. -/
def dynamicCast (castFn : Nat → Option Nat) (st : State) (h : SmartPtr) :
    Option (State × Except CastEx SmartPtr) :=
  match h.ptr.bind castFn with
  | some a =>
    let r := st.counts.alloc 1
    match r.1.read h.ref_count with
    | some c =>
      some (⟨st.store, r.1.write h.ref_count (c + 1)⟩, Except.ok ⟨some a, h.ref_count⟩)
    | none => none
  | none => some (st, Except.error CastEx.badCast)

/-- Modelled from the spec: the handle equality `operator==` is exercised by
`src/TestPointer.cpp` (`TestEquality`, lines 101-107) but its definition does
not appear in `src/SmartPointer.h`; spec section 4.1 defines it: two handles
are equal iff they reference the same storage and the same counter record. -/
def eqOp (h1 h2 : SmartPtr) : Bool :=
  h1.ptr == h2.ptr && h1.ref_count == h2.ref_count

/-! Basic facts about the heap model, used by the theorems below. -/

theorem Mem.read_alloc_self {V : Type} (m : Mem V) (v : V) :
    (m.alloc v).1.read m.next = some v := by
  simp [Mem.alloc, Mem.read, Mem.find]

theorem Mem.read_alloc_self2 {V : Type} (m : Mem V) (v : V) :
    (m.alloc v).1.read (m.alloc v).2 = some v :=
  Mem.read_alloc_self m v

theorem Mem.read_alloc_ne {V : Type} (m : Mem V) (v : V) {a : Nat}
    (h : a ≠ m.next) : (m.alloc v).1.read a = m.read a := by
  have hne : (m.next == a) = false := by simp; omega
  simp [Mem.alloc, Mem.read, Mem.find, hne]

theorem Mem.find_lt {V : Type} {a : Nat} {v : V} {n : Nat}
    {l : List (Nat × V)} (hwf : ∀ c ∈ l, c.1 < n)
    (h : Mem.find a l = some v) : a < n := by
  induction l with
  | nil => simp [Mem.find] at h
  | cons c tl ih =>
    by_cases hc : (c.1 == a) = true
    · have hc1 : c.1 = a := by simpa using hc
      have := hwf c (List.mem_cons_self c tl)
      omega
    · simp only [Mem.find, hc, Bool.false_eq_true, if_false] at h
      exact ih (fun d hd => hwf d (List.mem_cons_of_mem c hd)) h

theorem Mem.read_lt_next {V : Type} {m : Mem V} {a : Nat} {v : V}
    (hwf : m.wf) (h : m.read a = some v) : a < m.next :=
  Mem.find_lt hwf h

theorem Mem.find_write_self {V : Type} (a : Nat) (v w : V)
    (l : List (Nat × V)) (h : Mem.find a l = some w) :
    Mem.find a (l.map (fun c => if c.1 == a then (a, v) else c)) = some v := by
  induction l with
  | nil => simp [Mem.find] at h
  | cons c tl ih =>
    by_cases hc : (c.1 == a) = true
    · simp [Mem.find, hc]
    · simp only [Mem.find, hc, Bool.false_eq_true, if_false] at h
      simp only [List.map_cons, hc, Bool.false_eq_true, if_false, Mem.find]
      exact ih h

theorem Mem.read_write_self {V : Type} (m : Mem V) (a : Nat) (v w : V)
    (h : m.read a = some w) : (m.write a v).read a = some v :=
  Mem.find_write_self a v w m.cells h

theorem Mem.find_write_ne {V : Type} (a b : Nat) (v : V) (hab : a ≠ b)
    (l : List (Nat × V)) :
    Mem.find a (l.map (fun c => if c.1 == b then (b, v) else c))
      = Mem.find a l := by
  induction l with
  | nil => simp [Mem.find]
  | cons c tl ih =>
    by_cases hc : (c.1 == b) = true
    · have hc1 : c.1 = b := by simpa using hc
      have hba : (b == a) = false := by simp; omega
      have hca : (c.1 == a) = false := by rw [hc1]; exact hba
      simp only [List.map_cons, hc, if_true, Mem.find, hba, hca,
        Bool.false_eq_true, if_false]
      exact ih
    · simp only [List.map_cons, hc, Bool.false_eq_true, if_false, Mem.find]
      cases hca : (c.1 == a) with
      | true => simp
      | false => simpa [Bool.false_eq_true] using ih

theorem Mem.read_write_ne {V : Type} (m : Mem V) (a b : Nat) (v : V)
    (h : a ≠ b) : (m.write b v).read a = m.read a :=
  Mem.find_write_ne a b v h m.cells

theorem Mem.find_free_ne {V : Type} (a b : Nat) (hab : a ≠ b)
    (l : List (Nat × V)) :
    Mem.find a (l.filter (fun c => c.1 != b)) = Mem.find a l := by
  induction l with
  | nil => simp [Mem.find]
  | cons c tl ih =>
    by_cases hc : (c.1 == b) = true
    · have hc1 : c.1 = b := by simpa using hc
      have hca : (c.1 == a) = false := by rw [hc1]; simp; omega
      have hfb : (c.1 != b) = false := by simp [bne, hc]
      simp only [List.filter_cons, hfb, Bool.false_eq_true, if_false]
      simp only [Mem.find, hca, Bool.false_eq_true, if_false]
      exact ih
    · have hfb : (c.1 != b) = true := by simp [bne, hc]
      simp only [List.filter_cons, hfb, if_true, Mem.find]
      cases hca : (c.1 == a) with
      | true => simp
      | false => simpa [Bool.false_eq_true] using ih

theorem Mem.read_free_ne {V : Type} (m : Mem V) (a b : Nat)
    (h : a ≠ b) : (m.free b).read a = m.read a :=
  Mem.find_free_ne a b h m.cells

theorem Mem.find_free_self {V : Type} (a : Nat) (l : List (Nat × V)) :
    Mem.find a (l.filter (fun c => c.1 != a)) = none := by
  induction l with
  | nil => simp [Mem.find]
  | cons c tl ih =>
    by_cases hc : (c.1 == a) = true
    · have hf : (c.1 != a) = false := by simp [bne, hc]
      simp only [List.filter_cons, hf, Bool.false_eq_true, if_false]
      exact ih
    · have hf : (c.1 != a) = true := by simp [bne, hc]
      simp only [List.filter_cons, hf, if_true, Mem.find, hc,
        Bool.false_eq_true, if_false]
      exact ih

theorem Mem.read_free_self {V : Type} (m : Mem V) (a : Nat) :
    (m.free a).read a = none :=
  Mem.find_free_self a m.cells

theorem Mem.write_next {V : Type} (m : Mem V) (a : Nat) (v : V) :
    (m.write a v).next = m.next := rfl

theorem Mem.free_next {V : Type} (m : Mem V) (a : Nat) :
    (m.free a).next = m.next := rfl

theorem Mem.write_freed {V : Type} (m : Mem V) (a : Nat) (v : V) :
    (m.write a v).freed = m.freed := rfl

theorem Mem.free_freed {V : Type} (m : Mem V) (a : Nat) :
    (m.free a).freed = a :: m.freed := rfl

theorem Mem.alloc_freed {V : Type} (m : Mem V) (v : V) :
    (m.alloc v).1.freed = m.freed := rfl

/-- Caller-side observation of a cast result: the handle when the cast
returned normally. -/
def okHandle : Option (State × Except CastEx SmartPtr) → Option SmartPtr
  | some (_, Except.ok h) => some h
  | _ => none

/-- Caller-side observation of a cast result: the state when the cast
returned normally. -/
def okState : Option (State × Except CastEx SmartPtr) → Option State
  | some (s, Except.ok _) => some s
  | _ => none

/-! Concrete scenario used by the spec and by `TestPointer.cpp`: handle A owns
the integer 10; B is copy-constructed from A; A is moved into C; then B and C
are destroyed in turn. The intermediate states below are the values the
operations compute (each step of the trace is proved in the theorems). -/

/-- State after `SmartPtr<int> A(new int(10))`: the integer lives in storage
cell 0, the shared count cell 0 holds 1. -/
def stA : State := ⟨⟨1, [(0, 10)], []⟩, ⟨1, [(0, 1)], []⟩⟩

/-- Handle A itself. -/
def hA : SmartPtr := ⟨some 0, 0⟩

/-- State after `SmartPtr<int> B(A)`: B got a fresh copy of the value in
storage cell 1 and shares count cell 0, now holding 2. -/
def stAB : State := ⟨⟨2, [(1, 10), (0, 10)], []⟩, ⟨1, [(0, 2)], []⟩⟩

/-- Handle B itself: note its storage cell differs from A's. -/
def hB : SmartPtr := ⟨some 1, 0⟩

/-- State after `SmartPtr<int> C(std::move(A))`: C took over A's pointer and
count cell; A received the fresh zero count cell 1. -/
def stABC : State := ⟨⟨2, [(1, 10), (0, 10)], []⟩, ⟨2, [(1, 0), (0, 2)], []⟩⟩

/-- Handle C itself. -/
def hC : SmartPtr := ⟨some 0, 0⟩

/-- Handle A after being moved from: empty. -/
def hAmoved : SmartPtr := ⟨none, 1⟩

/-- State after destroying B: the shared count dropped to 1, nothing freed. -/
def stDtorB : State := ⟨⟨2, [(1, 10), (0, 10)], []⟩, ⟨2, [(1, 0), (0, 1)], []⟩⟩

/-- State after destroying C as well: the count hit 0, so storage cell 0 (the
owned integer) and count cell 0 were released, each logged once. -/
def stDtorC : State := ⟨⟨2, [(1, 10)], [0]⟩, ⟨2, [(1, 0)], [0]⟩⟩

/-- C2: in the scenario A owns 10, B is a copy of A, A is moved into C, then B
and C are destroyed, the release of the owned integer's storage (cell 0)
happens exactly once, at the destruction step whose counter transition is
1 to 0 (C's), never earlier (B's destruction at 2 to 1 frees nothing) and
never twice (the free log of cell 0 ends at exactly one entry). The count
observations of the spec's scenario hold along the way. -/
theorem C2_release_exactly_once :
    mkOwning st0 10 = (stA, hA) ∧
    use_count stA hA = some 1 ∧
    copyCtor stA hA = some (stAB, hB) ∧
    use_count stAB hA = some 2 ∧
    use_count stAB hB = some 2 ∧
    moveCtor stAB hA = (stABC, hC, hAmoved) ∧
    use_count stABC hAmoved = some 0 ∧
    get hAmoved = none ∧
    use_count stABC hC = some 2 ∧
    dtor stABC hB = some stDtorB ∧
    stDtorB.store.freed.count 0 = 0 ∧
    use_count stDtorB hC = some 1 ∧
    dtor stDtorB hC = some stDtorC ∧
    stDtorC.store.freed.count 0 = 1 := by
  decide

/-- C3 counterexample: the claim says `staticCast<U>()` never signals a
runtime error even on an empty handle, but on a default-constructed (null)
handle the code takes the `newPtr == nullptr` branch and throws
`std::bad_cast`. -/
theorem C3_staticCast_empty_counterexample :
    staticCast (mkFromRaw st0 none).1 (mkFromRaw st0 none).2
      = some ((mkFromRaw st0 none).1, Except.error CastEx.badCast) := by
  rfl

/-- C4: `dynamicCast<U>()` on a non-empty handle whose dynamic type is
unrelated to U (`dynamic_cast` yields null, `castFn a = none`) throws
`std::bad_cast` and returns the state exactly as it was: no count was touched
and no storage changed, so the original handle's `use_count()` and storage
are unchanged. -/
theorem C4_dynamicCast_unrelated_fails_unchanged
    (castFn : Nat → Option Nat) (st : State) (h : SmartPtr) (a : Nat)
    (hp : h.ptr = some a) (hun : castFn a = none) :
    dynamicCast castFn st h = some (st, Except.error CastEx.badCast) := by
  simp [dynamicCast, hp, hun]

/-- C4 witness: a handle owning the integer 10 cast under a type relation
that rejects every address. -/
theorem C4_dynamicCast_unrelated_fails_unchanged_witness :
    hA.ptr = some 0 ∧ (fun _ : Nat => (none : Option Nat)) 0 = none ∧
    dynamicCast (fun _ => none) stA hA
      = some (stA, Except.error CastEx.badCast) :=
  ⟨by decide, rfl,
    C4_dynamicCast_unrelated_fails_unchanged (fun _ => none) stA hA 0
      (by decide) rfl⟩

/-- C7: constructing from a raw pointer gives observable count 1 when the
pointer is non-null and 0 when null; for a null pointer the liveness check
fails (`operator!` is true) and `get()` is null; for a freshly allocated
value v, `get()` points at a cell holding v. -/
theorem C7_construct_from_raw (st : State) (a : Nat) (v : Int) :
    use_count (mkFromRaw st none).1 (mkFromRaw st none).2 = some 0 ∧
    bang (mkFromRaw st none).2 = true ∧
    get (mkFromRaw st none).2 = none ∧
    use_count (mkFromRaw st (some a)).1 (mkFromRaw st (some a)).2 = some 1 ∧
    use_count (mkOwning st v).1 (mkOwning st v).2 = some 1 ∧
    (get (mkOwning st v).2).bind ((mkOwning st v).1.store.read) = some v := by
  refine ⟨rfl, rfl, rfl, ?_, ?_, ?_⟩
  · simp [mkFromRaw, use_count, Mem.read_alloc_self2]
  · simp [mkOwning, mkFromRaw, use_count, Mem.read_alloc_self2]
  · simp [mkOwning, mkFromRaw, get, Mem.read_alloc_self2]

/-- C9: handle equality is identity of the ownership record (spec-modelled:
the operator is absent from `src/SmartPointer.h`): two handles are equal iff
they reference the same storage pointer and the same counter record; in
particular two handles over distinct cells holding equal values (both cells
store 10 below) are not equal. -/
theorem C9_equality_is_identity :
    (∀ h1 h2 : SmartPtr,
      eqOp h1 h2 = true ↔ h1.ptr = h2.ptr ∧ h1.ref_count = h2.ref_count) ∧
    Mem.read (⟨2, [(0, 10), (1, 10)], []⟩ : Mem Int) 0
      = Mem.read (⟨2, [(0, 10), (1, 10)], []⟩ : Mem Int) 1 ∧
    eqOp ⟨some 0, 0⟩ ⟨some 1, 1⟩ = false := by
  refine ⟨fun h1 h2 => ?_, by decide, by decide⟩
  simp [eqOp]

/-- C10: the copy constructor and the copy assignment operator both evaluate
`new T(*other.ptr)`, dereferencing the source handle's storage pointer with
no null check, so neither is defined on an empty source: in the model both
operations are undefined (`none`) whenever the source pointer is null. -/
theorem C10_copy_requires_nonempty_source (st : State) (self src : SmartPtr)
    (hp : src.ptr = none) :
    copyCtor st src = none ∧ copyAssign false st self src = none := by
  constructor
  · simp [copyCtor, hp]
  · cases hc : st.counts.read self.ref_count with
    | none => simp [copyAssign, hc]
    | some c => simp [copyAssign, hc, hp]

/-- C10 witness: copying from a default-constructed (null) handle. -/
theorem C10_copy_requires_nonempty_source_witness :
    (mkFromRaw st0 none).2.ptr = none ∧
    copyCtor stA (mkFromRaw st0 none).2 = none ∧
    copyAssign false stA hA (mkFromRaw st0 none).2 = none :=
  ⟨by decide,
    (C10_copy_requires_nonempty_source stA hA (mkFromRaw st0 none).2
      (by decide)).1,
    (C10_copy_requires_nonempty_source stA hA (mkFromRaw st0 none).2
      (by decide)).2⟩

/-- C1 counterexample: copy-constructing B from A (A owning the integer 10)
does not make `get()` of the two handles equal: the constructor evaluates
`new T(*other.ptr)`, so B points at a fresh storage cell (cell 1, not A's
cell 0) even though both observe the shared count 2. -/
theorem C1_copy_aliases_storage_counterexample :
    copyCtor stA hA = some (stAB, hB) ∧
    get hB ≠ get hA ∧
    use_count stAB hA = some 2 ∧
    use_count stAB hB = some 2 := by
  decide

/-- C1 (amended): copy-constructing h2 from a non-empty handle h shares h's
count record and increments it — afterwards both handles' `use_count()`
equal the pre-copy count plus 1 — but h2's storage is a freshly allocated
copy of h's value, so `get()` of the two handles differ and they are not
aliases of one storage object. -/
theorem C1_copy_shares_count_not_storage (st : State) (h : SmartPtr)
    (a : Nat) (v c : Int) (hwf : st.store.wf) (hp : h.ptr = some a)
    (hv : st.store.read a = some v)
    (hc : st.counts.read h.ref_count = some c) :
    (copyCtor st h).map
        (fun r => (r.2.ref_count, use_count r.1 h, use_count r.1 r.2,
          get r.2 == get h))
      = some (h.ref_count, some (c + 1), some (c + 1), false) := by
  have hw : (st.counts.write h.ref_count (c + 1)).read h.ref_count
      = some (c + 1) :=
    Mem.read_write_self st.counts h.ref_count (c + 1) c hc
  have hlt : a < st.store.next := Mem.read_lt_next hwf hv
  have hne : (some (st.store.alloc v).2 == some a) = false := by
    simp only [Mem.alloc, beq_eq_false_iff_ne, ne_eq, Option.some.injEq]
    omega
  simp [copyCtor, hp, hv, hc, use_count, get, hw, hne]

/-- C1 witness: copying the handle that owns the integer 10. -/
theorem C1_copy_shares_count_not_storage_witness :
    stA.store.wf ∧ hA.ptr = some 0 ∧ stA.store.read 0 = some 10 ∧
    stA.counts.read hA.ref_count = some 1 ∧
    (copyCtor stA hA).map
        (fun r => (r.2.ref_count, use_count r.1 hA, use_count r.1 r.2,
          get r.2 == get hA))
      = some (hA.ref_count, some (1 + 1), some (1 + 1), false) :=
  ⟨by decide, by decide, by decide, by decide,
    C1_copy_shares_count_not_storage stA hA 0 10 1 (by decide) (by decide)
      (by decide) (by decide)⟩

/-- C3 (amended): `staticCast<U>()` signals no runtime error on any
non-empty handle — it returns a handle — but on an empty handle (null
storage) the `newPtr != nullptr` test fails and the code throws
`std::bad_cast`, leaving the state untouched. -/
theorem C3_staticCast_error_only_on_empty (st : State) (h he : SmartPtr)
    (a : Nat) (hp : h.ptr = some a)
    (hc : (st.counts.read h.ref_count).isSome = true)
    (hemp : he.ptr = none) :
    (okHandle (staticCast st h)).isSome = true ∧
    staticCast st he = some (st, Except.error CastEx.badCast) := by
  constructor
  · by_cases heq : h.ref_count = st.counts.next
    · have h1 : (st.counts.alloc 1).1.read h.ref_count = some 1 := by
        rw [heq]; exact Mem.read_alloc_self st.counts 1
      simp [staticCast, hp, h1, okHandle]
    · have h1 : (st.counts.alloc 1).1.read h.ref_count
          = st.counts.read h.ref_count :=
        Mem.read_alloc_ne st.counts 1 heq
      obtain ⟨cv, hcv⟩ := Option.isSome_iff_exists.mp hc
      rw [hcv] at h1
      simp [staticCast, hp, h1, okHandle]
  · simp [staticCast, hemp]

/-- C3 witness: a non-empty handle is cast without error, an empty one
throws. -/
theorem C3_staticCast_error_only_on_empty_witness :
    hA.ptr = some 0 ∧ (stA.counts.read hA.ref_count).isSome = true ∧
    (mkFromRaw st0 none).2.ptr = none ∧
    (okHandle (staticCast stA hA)).isSome = true ∧
    staticCast stA (mkFromRaw st0 none).2
      = some (stA, Except.error CastEx.badCast) :=
  ⟨by decide, by decide, by decide,
    (C3_staticCast_error_only_on_empty stA hA (mkFromRaw st0 none).2 0
      (by decide) (by decide) (by decide)).1,
    (C3_staticCast_error_only_on_empty stA hA (mkFromRaw st0 none).2 0
      (by decide) (by decide) (by decide)).2⟩

/-- C5: move-constructing h3 from a non-empty handle h transfers the pointer
and the count record without incrementing the count — h3's observable
pointer and count equal h's pre-move ones, so the total live-alias count of
the object is unchanged — and leaves h empty: `get()` null and `use_count()`
0. -/
theorem C5_moveCtor_transfers_without_increment (st : State) (h : SmartPtr)
    (a : Nat) (c : Int) (hwf : st.counts.wf) (hp : h.ptr = some a)
    (hc : st.counts.read h.ref_count = some c) :
    (moveCtor st h).2.1 = ⟨h.ptr, h.ref_count⟩ ∧
    use_count st h = some c ∧
    use_count (moveCtor st h).1 (moveCtor st h).2.1 = some c ∧
    get (moveCtor st h).2.2 = none ∧
    use_count (moveCtor st h).1 (moveCtor st h).2.2 = some 0 := by
  have hlt : h.ref_count < st.counts.next := Mem.read_lt_next hwf hc
  have hra : (st.counts.alloc 0).1.read h.ref_count
      = st.counts.read h.ref_count :=
    Mem.read_alloc_ne st.counts 0 (by omega)
  refine ⟨rfl, ?_, ?_, rfl, rfl⟩
  · simp [use_count, hp, hc]
  · simp [moveCtor, use_count, hp, hra, hc]

/-- C5 witness: moving out of the handle that owns the integer 10 while a
copy is alive (shared count 2). -/
theorem C5_moveCtor_transfers_without_increment_witness :
    stAB.counts.wf ∧ hA.ptr = some 0 ∧
    stAB.counts.read hA.ref_count = some 2 ∧
    ((moveCtor stAB hA).2.1 = ⟨hA.ptr, hA.ref_count⟩ ∧
      use_count stAB hA = some 2 ∧
      use_count (moveCtor stAB hA).1 (moveCtor stAB hA).2.1 = some 2 ∧
      get (moveCtor stAB hA).2.2 = none ∧
      use_count (moveCtor stAB hA).1 (moveCtor stAB hA).2.2 = some 0) :=
  ⟨by decide, by decide, by decide,
    C5_moveCtor_transfers_without_increment stAB hA 0 2 (by decide)
      (by decide) (by decide)⟩

/-- State with two independently owned integers: h1 owns 10 in storage cell
0 (count cell 0), h2 owns 20 in storage cell 1 (count cell 1), each with
count 1. -/
def stD : State := ⟨⟨2, [(1, 20), (0, 10)], []⟩, ⟨2, [(1, 1), (0, 1)], []⟩⟩

/-- The handle owning 10 in `stD`. -/
def h1D : SmartPtr := ⟨some 0, 0⟩

/-- The handle owning 20 in `stD`. -/
def h2D : SmartPtr := ⟨some 1, 1⟩

/-- C6 counterexample: copy-assigning h2 = h1 does release h2's prior object
(storage cell 1 and count cell 1 are freed) but does not alias h1's storage:
the assignment evaluates `new T(*other.ptr)`, so h2 ends up pointing at the
fresh storage cell 2 while h1 still points at cell 0. -/
theorem C6_copyAssign_aliases_storage_counterexample :
    copyAssign false stD h2D h1D
      = some (⟨⟨3, [(2, 10), (0, 10)], [1]⟩, ⟨2, [(0, 2)], [1]⟩⟩,
          ⟨some 2, 0⟩) ∧
    get (⟨some 2, 0⟩ : SmartPtr) ≠ get h1D := by
  decide

/-- C6 (amended): copy-assigning h2 = h1 over distinct objects (h2's prior
count being any c2) first releases h2's prior stake — the count cell is
decremented, and exactly when it reaches zero h2's storage cell and count
cell are deallocated (each then appears once more in the free logs;
otherwise the logs are unchanged and the old cell just holds c2 - 1) — and
only then adopts h1's count record with an increment; afterwards
`use_count()` of h1 and of the new h2 are both the prior count plus 1, but
h2's storage is a fresh copy of h1's value, not an alias: `get()` of the two
handles differ. Self-assignment is a no-op. -/
theorem C6_copyAssign_releases_then_shares_count (st : State)
    (h1 h2 : SmartPtr) (a1 a2 : Nat) (v c1 c2 : Int) (hwf : st.store.wf)
    (hp1 : h1.ptr = some a1) (hp2 : h2.ptr = some a2) (haa : a1 ≠ a2)
    (hrr : h1.ref_count ≠ h2.ref_count)
    (hv1 : st.store.read a1 = some v)
    (hc1 : st.counts.read h1.ref_count = some c1)
    (hc2 : st.counts.read h2.ref_count = some c2) :
    (copyAssign false st h2 h1).map
        (fun r => (r.1.store.freed, r.1.counts.freed, r.2.ref_count,
          use_count r.1 h1, use_count r.1 r.2,
          r.1.counts.read h2.ref_count, get r.2 == get h1))
      = some
          (if c2 - 1 = 0 then a2 :: st.store.freed else st.store.freed,
          if c2 - 1 = 0 then h2.ref_count :: st.counts.freed
            else st.counts.freed,
          h1.ref_count, some (c1 + 1), some (c1 + 1),
          if c2 - 1 = 0 then none else some (c2 - 1), false) ∧
    copyAssign true st h2 h2 = some (st, h2) := by
  have hlt : a1 < st.store.next := Mem.read_lt_next hwf hv1
  constructor
  · by_cases hz : c2 - 1 = 0
    · have hc2eq : c2 = 1 := by omega
      subst hc2eq
      have hread1 : ((st.counts.write h2.ref_count 0).free
          h2.ref_count).read h1.ref_count = some c1 := by
        rw [Mem.read_free_ne _ _ _ hrr, Mem.read_write_ne _ _ _ _ hrr]
        exact hc1
      have hreadv : (st.store.free a2).read a1 = some v := by
        rw [Mem.read_free_ne _ _ _ haa]; exact hv1
      have hw : (((st.counts.write h2.ref_count 0).free h2.ref_count).write
          h1.ref_count (c1 + 1)).read h1.ref_count = some (c1 + 1) :=
        Mem.read_write_self _ h1.ref_count (c1 + 1) c1 hread1
      have hdead : (((st.counts.write h2.ref_count 0).free
          h2.ref_count).write h1.ref_count (c1 + 1)).read h2.ref_count
          = none := by
        rw [Mem.read_write_ne _ _ _ _ (Ne.symm hrr)]
        exact Mem.read_free_self _ _
      have hne : (some (st.store.free a2).next == some a1) = false := by
        simp only [Mem.free_next, beq_eq_false_iff_ne, ne_eq,
          Option.some.injEq]
        omega
      simp [copyAssign, hp1, hp2, hc2, hreadv, hread1, hw, hdead, hne,
        use_count, get, Mem.alloc, Mem.free_next, Mem.write_freed,
        Mem.free_freed]
      omega
    · have hread1 : (st.counts.write h2.ref_count (c2 - 1)).read
          h1.ref_count = some c1 := by
        rw [Mem.read_write_ne _ _ _ _ hrr]; exact hc1
      have hw : ((st.counts.write h2.ref_count (c2 - 1)).write h1.ref_count
          (c1 + 1)).read h1.ref_count = some (c1 + 1) :=
        Mem.read_write_self _ h1.ref_count (c1 + 1) c1 hread1
      have hcell2 : ((st.counts.write h2.ref_count (c2 - 1)).write
          h1.ref_count (c1 + 1)).read h2.ref_count = some (c2 - 1) := by
        rw [Mem.read_write_ne _ _ _ _ (Ne.symm hrr)]
        exact Mem.read_write_self _ h2.ref_count (c2 - 1) c2 hc2
      have hne : (some st.store.next == some a1) = false := by
        simp only [beq_eq_false_iff_ne, ne_eq, Option.some.injEq]
        omega
      simp [copyAssign, hp1, hp2, hc2, hz, hv1, hread1, hw, hcell2, hne,
        use_count, get, Mem.alloc, Mem.write_freed]
  · rfl

/-- C6 witness: the two-owner scenario of `stD`, where h2 is the last owner
of its object (prior count 1), so the release branch fires. -/
theorem C6_copyAssign_releases_then_shares_count_witness :
    stD.store.wf ∧ h1D.ptr = some 0 ∧ h2D.ptr = some 1 ∧
    stD.store.read 0 = some 10 ∧
    stD.counts.read h1D.ref_count = some 1 ∧
    stD.counts.read h2D.ref_count = some 1 ∧
    ((copyAssign false stD h2D h1D).map
        (fun r => (r.1.store.freed, r.1.counts.freed, r.2.ref_count,
          use_count r.1 h1D, use_count r.1 r.2,
          r.1.counts.read h2D.ref_count, get r.2 == get h1D))
      = some
          (if (1 : Int) - 1 = 0 then 1 :: stD.store.freed
            else stD.store.freed,
          if (1 : Int) - 1 = 0 then h2D.ref_count :: stD.counts.freed
            else stD.counts.freed,
          h1D.ref_count, some (1 + 1), some (1 + 1),
          if (1 : Int) - 1 = 0 then none else some (1 - 1), false) ∧
      copyAssign true stD h2D h2D = some (stD, h2D)) :=
  ⟨by decide, by decide, by decide, by decide, by decide, by decide,
    C6_copyAssign_releases_then_shares_count stD h1D h2D 0 1 10 1 1
      (by decide) (by decide) (by decide) (by decide) (by decide)
      (by decide) (by decide) (by decide)⟩

/-- C8: `staticCast<U>()` on a non-empty handle (one actually holding a
value of the cast-to type) returns a new handle sharing the count record and
increments the shared count by exactly 1 relative to the pre-cast state;
from then on the original and the cast handle read the same count cell, so
their counts are equal. -/
theorem C8_staticCast_increments_once (st : State) (h : SmartPtr) (a : Nat)
    (c : Int) (hwf : st.counts.wf) (hp : h.ptr = some a)
    (hc : st.counts.read h.ref_count = some c) :
    okHandle (staticCast st h) = some ⟨some a, h.ref_count⟩ ∧
    (okState (staticCast st h)).bind (fun s => use_count s h)
      = some (c + 1) ∧
    (okState (staticCast st h)).bind
      (fun s => use_count s ⟨some a, h.ref_count⟩) = some (c + 1) := by
  have hlt : h.ref_count < st.counts.next := Mem.read_lt_next hwf hc
  have hra : (st.counts.alloc 1).1.read h.ref_count
      = st.counts.read h.ref_count :=
    Mem.read_alloc_ne st.counts 1 (by omega)
  have hw : ((st.counts.alloc 1).1.write h.ref_count (c + 1)).read
      h.ref_count = some (c + 1) := by
    refine Mem.read_write_self _ h.ref_count (c + 1) c ?_
    rw [hra]; exact hc
  rw [hc] at hra
  simp [staticCast, hp, hra, okHandle, okState, use_count, hw]

/-- C8 witness: casting the sole owner of a freshly allocated value takes
the shared count from 1 to 2 on both handles. -/
theorem C8_staticCast_increments_once_witness :
    stA.counts.wf ∧ hA.ptr = some 0 ∧
    stA.counts.read hA.ref_count = some 1 ∧
    (okHandle (staticCast stA hA) = some ⟨some 0, hA.ref_count⟩ ∧
      (okState (staticCast stA hA)).bind (fun s => use_count s hA)
        = some (1 + 1) ∧
      (okState (staticCast stA hA)).bind
        (fun s => use_count s ⟨some 0, hA.ref_count⟩) = some (1 + 1)) :=
  ⟨by decide, by decide, by decide,
    C8_staticCast_increments_once stA hA 0 1 (by decide) (by decide)
      (by decide)⟩

end SmartPointer
